import Mathlib

/-!
Verification development for the AI-provider service module
(`src/services/geminiService.ts`).

The module is shallowly embedded: each TypeScript helper becomes an
executable Lean definition. Outbound HTTP (`fetch`) and the Gemini SDK
calls are modelled as explicit oracle functions mapping a request value
to an outcome (a response, or a network error carrying the rejection
message); thrown JS errors become `Except.error` carrying the error
message string. JS string truthiness (`''` is falsy) is modelled
explicitly, `localeCompare`-based ordering is modelled by code-point
lexicographic order, and `String.prototype.trim` by dropping Unicode
whitespace at both ends.
-/

set_option linter.unusedVariables false

/-- Code-point lexicographic comparison on character lists
(model of the total order induced by `a.localeCompare(b)`). -/
def listLe : List Char → List Char → Bool
  | [], _ => true
  | _ :: _, [] => false
  | a :: as, b :: bs =>
    if a.toNat < b.toNat then true
    else if b.toNat < a.toNat then false
    else listLe as bs

/-- String comparison used by the model of `sort((a, b) => a.localeCompare(b))`. -/
def strLe (a b : String) : Bool := listLe a.data b.data

/-- `strLe` as a relation, for use with `List.insertionSort`. -/
def strLeR : String → String → Prop := fun a b => strLe a b = true

instance : DecidableRel strLeR := fun a b => instDecidableEqBool _ _

instance {ε α : Type} [DecidableEq ε] [DecidableEq α] : DecidableEq (Except ε α) := fun x y =>
  match x, y with
  | Except.ok a, Except.ok b =>
    if h : a = b then Decidable.isTrue (by rw [h])
    else Decidable.isFalse (fun hc => h (Except.ok.inj hc))
  | Except.error a, Except.error b =>
    if h : a = b then Decidable.isTrue (by rw [h])
    else Decidable.isFalse (fun hc => h (Except.error.inj hc))
  | Except.ok _, Except.error _ => Decidable.isFalse (fun hc => Except.noConfusion hc)
  | Except.error _, Except.ok _ => Decidable.isFalse (fun hc => Except.noConfusion hc)

/-- Boolean list-prefix test. -/
def isPrefixOfB : List Char → List Char → Bool
  | [], _ => true
  | _ :: _, [] => false
  | a :: as, b :: bs => a == b && isPrefixOfB as bs

/-- Boolean list-infix (contiguous substring) test. -/
def isInfixOfB (needle : List Char) : List Char → Bool
  | [] => needle.isEmpty
  | h :: hs => isPrefixOfB needle (h :: hs) || isInfixOfB needle hs

/-- Model of JS `s.includes(sub)`. -/
def strIncludes (s sub : String) : Bool := isInfixOfB sub.data s.data

/-- Model of JS `String.prototype.trim`. -/
def jsTrim (s : String) : String :=
  String.mk (((s.data.dropWhile Char.isWhitespace).reverse.dropWhile Char.isWhitespace).reverse)

/-- Model of JS `String.prototype.toLowerCase`. -/
def strToLower (s : String) : String := String.mk (s.data.map Char.toLower)

/-- Model of the JS `x || dflt` idiom on an optional string
(`undefined` and `''` are falsy and select the default). -/
def jsOr (o : Option String) (dflt : String) : String :=
  match o with
  | some s => if s = "" then dflt else s
  | none => dflt

/-- JS string truthiness as an `Option` filter: `some s` survives only when
`s` is nonempty. -/
def jsStr (o : Option String) : Option String :=
  match o with
  | some s => if s = "" then none else some s
  | none => none

/-- The `AIConfig` value consumed by every operation
(`provider`, `apiKey`, `baseUrl`, `chatModel`, `imageModel`, `temperature`).
JS numbers are modelled as rationals. -/
structure AIConfig where
  provider : String := "gemini"
  apiKey : String := ""
  baseUrl : Option String := none
  chatModel : Option String := none
  imageModel : Option String := none
  temperature : Option Rat := none

/-- One turn of chat history: `{ role: 'user' | 'model', text: string }`. -/
structure HistTurn where
  role : String
  text : String

/-- Model of `url.replace(/\/$/, '')`: removes exactly one trailing slash. -/
def stripTrailingSlash (s : String) : String :=
  match s.data.reverse with
  | '/' :: rest => String.mk rest.reverse
  | _ => s

/-- True when the string ends in two (or more) slashes. -/
def endsWithTwoSlashes (s : String) : Bool :=
  match s.data.reverse with
  | '/' :: '/' :: _ => true
  | _ => false

/-- Model of `config.baseUrl ? config.baseUrl.replace(/\/$/, '') : dflt`
(lines 15, 46 and 118 of the source): fall back to the provider default
when the configured URL is absent or empty, else strip one trailing slash. -/
def normalizeBaseUrl (baseUrl : Option String) (dflt : String) : String :=
  match baseUrl with
  | some u => if u = "" then dflt else stripTrailingSlash u
  | none => dflt

/-- The OpenAI-compatible provider's default base URL. -/
def openAIDefaultBase : String := "https://api.openai.com/v1"

/-- Model of `name.replace(/^models\//, '')`: strips one leading
`models/` segment when present. -/
def stripGeminiModelPfx (name : String) : String :=
  match name.data with
  | 'm' :: 'o' :: 'd' :: 'e' :: 'l' :: 's' :: '/' :: rest => String.mk rest
  | _ => name

/-- Keep the first occurrence of each element (model of iterating a JS
`Set` built by insertion). -/
def dedupFirstAux : List String → List String → List String
  | [], _ => []
  | a :: l, seen => if a ∈ seen then dedupFirstAux l seen else a :: dedupFirstAux l (a :: seen)

/-- `Array.from(new Set(...))`: deduplicate keeping first occurrences. -/
def dedupFirst (l : List String) : List String := dedupFirstAux l []

/-- Model of `dedupeAndSort` (source line 90-92): trim each entry, drop
entries empty after trimming, deduplicate, sort ascending. -/
def dedupeAndSort (models : List String) : List String :=
  List.insertionSort strLeR (dedupFirst (((models.map jsTrim).filter (fun s => s ≠ ""))))

/-- Uppercase hexadecimal digit. -/
def hexDigitChar (n : Nat) : Char :=
  if n < 10 then Char.ofNat (48 + n) else Char.ofNat (55 + n)

/-- UTF-8 bytes of a code point. -/
def utf8Bytes (n : Nat) : List Nat :=
  if n < 0x80 then [n]
  else if n < 0x800 then [0xC0 + n / 0x40, 0x80 + n % 0x40]
  else if n < 0x10000 then [0xE0 + n / 0x1000, 0x80 + (n / 0x40) % 0x40, 0x80 + n % 0x40]
  else [0xF0 + n / 0x40000, 0x80 + (n / 0x1000) % 0x40, 0x80 + (n / 0x40) % 0x40, 0x80 + n % 0x40]

/-- Characters `encodeURIComponent` leaves unescaped. -/
def isUnreservedURIChar (c : Char) : Bool :=
  c.isAlpha || c.isDigit || c ∈ ['-', '_', '.', '!', '~', '*', '\'', '(', ')']

/-- Model of JS `encodeURIComponent`. -/
def encodeURIComponent (s : String) : String :=
  String.join (s.data.map (fun c =>
    if isUnreservedURIChar c then String.mk [c]
    else String.join ((utf8Bytes c.toNat).map
      (fun b => "%" ++ String.mk [hexDigitChar (b / 16), hexDigitChar (b % 16)]))))

/-- Model of `withSearchParams` (source line 96-103): append the defined,
non-empty parameters as a URL-encoded query string, using `&` when the URL
already contains `?`. Parameter order is the JS object-literal entry order. -/
def withSearchParams (url : String) (params : List (String × Option String)) : String :=
  let query := String.intercalate "&"
    ((params.filter (fun kv => match kv.2 with | some v => v ≠ "" | none => false)).map
      (fun kv => encodeURIComponent kv.1 ++ "=" ++ encodeURIComponent (kv.2.getD "")))
  if query = "" then url
  else url ++ (if url.data.contains '?' then "&" else "?") ++ query

/-- Model of `e?.message || String(e)`: an empty error message renders as
`"Error"` (the `String(new Error(''))` value). -/
def errToMsg (m : String) : String := if m = "" then "Error" else m

/-- Model of `formatNetworkError` (source line 105-111): when the message
matches `/Failed to fetch/i`, append the CORS/connectivity hint. -/
def formatNetworkError (m : String) : String :=
  let msg := errToMsg m
  if strIncludes (strToLower msg) "failed to fetch" then
    msg ++ "（可能是浏览器跨域 CORS 或网络问题）"
  else msg

/-- An outbound HTTP request: final URL plus headers. -/
structure Request where
  url : String
  headers : List (String × String) := []
deriving DecidableEq

/-- An HTTP response of body type `β`. `body = none` means the body is not
parseable JSON (`safeParseJson` yields `null`; `response.json()` throws
`parseErrMsg`). -/
structure HttpResponse (β : Type) where
  ok : Bool
  status : Nat := 200
  statusText : String := ""
  body : Option β := none
  parseErrMsg : String := "Unexpected end of JSON input"
deriving DecidableEq

/-- Outcome of one `fetch`: a response, or a rejected promise whose error
message is `msg` (e.g. the browser's `Failed to fetch`). -/
inductive FetchOutcome (β : Type) where
  | resp (r : HttpResponse β)
  | netErr (msg : String)
deriving DecidableEq

/-- `errorBody?.error?.message || response.statusText || 'HTTP ' + status`:
the JSON error message when present and nonempty, else the status text when
nonempty, else `HTTP <status>`. `getMsg` extracts `error?.message` from a
parsed body. -/
def respErrMessage {β : Type} (getMsg : β → Option String) (r : HttpResponse β) : String :=
  let fallback := if r.statusText = "" then "HTTP " ++ toString r.status else r.statusText
  match r.body with
  | some b =>
    match getMsg b with
    | some s => if s = "" then fallback else s
    | none => fallback
  | none => fallback

/-- Parsed body shape of a Gemini `GET .../models` page:
`{ error?: { message? }, models?: [{ name? }], nextPageToken? }`. -/
structure GeminiListBody where
  errorMessage : Option String := none
  models : List (Option String) := []
  nextPageToken : Option String := none
deriving DecidableEq

/-- The model names contributed by one Gemini page:
`(data?.models || []).map(m => stripGeminiModelPrefix(m?.name || '')).filter(Boolean)`. -/
def pageModels (b : GeminiListBody) : List String :=
  ((b.models.map (fun m => stripGeminiModelPfx (m.getD ""))).filter (fun s => s ≠ ""))

/-- Parsed body shape of the OpenAI `GET {base}/models` response:
`{ error?: { message? }, data?: [{ id? }] }`. -/
structure OpenAIListBody where
  errorMessage : Option String := none
  data : List (Option String) := []
deriving DecidableEq

/-- True when the custom base matches `/\/v1beta(\/|$)/`. -/
def hasV1beta (s : String) : Bool :=
  isInfixOfB "/v1beta/".data s.data || isPrefixOfB "/v1beta".data.reverse s.data.reverse

/-- Model of the Gemini custom base computation (source line 142):
`config.baseUrl && config.baseUrl.trim() !== '' ? config.baseUrl.trim().replace(/\/$/, '') : ''`. -/
def geminiCustomBase (cfg : AIConfig) : String :=
  match cfg.baseUrl with
  | some u => if u = "" then "" else if jsTrim u = "" then "" else stripTrailingSlash (jsTrim u)
  | none => ""

/-- The candidate Gemini discovery endpoints, in preference order
(source lines 143-153). -/
def geminiEndpoints (cfg : AIConfig) : List String :=
  let customBase := geminiCustomBase cfg
  if customBase = "" then ["https://generativelanguage.googleapis.com/v1beta/models"]
  else (customBase ++ "/models") ::
    (if hasV1beta customBase then [] else [customBase ++ "/v1beta/models"])

/-- Request of the query-parameter auth strategy: the key (and page token)
are sent as URL parameters, no headers. -/
def geminiQueryReq (cfg : AIConfig) (endpoint : String) (tok : Option String) : Request :=
  { url := withSearchParams endpoint [("key", some cfg.apiKey), ("pageToken", tok)] }

/-- Request of the header auth strategy: only the page token is a URL
parameter; the key travels in the `x-goog-api-key` header. -/
def geminiHeaderReq (cfg : AIConfig) (endpoint : String) (tok : Option String) : Request :=
  { url := withSearchParams endpoint [("pageToken", tok)]
    headers := [("x-goog-api-key", cfg.apiKey)] }

/-- One Gemini pagination attempt (the `do ... while (pageToken)` loop of
source lines 159-182 and 191-219). `fuel` models the remaining page budget
(`guard > 20` breaks, so the loop starts with fuel 20); the second component
counts the page fetches actually issued. Accumulated `models` and the
current `pageToken` are threaded through. -/
def geminiPaginate (oracle : Request → FetchOutcome GeminiListBody)
    (mkReq : Option String → Request) :
    Nat → List String → Option String → Except String (List String) × Nat
  | 0, models, _ => (Except.ok models, 0)
  | fuel + 1, models, pageToken =>
    if models.length > 500 then (Except.ok models, 0)
    else
      match oracle (mkReq pageToken) with
      | FetchOutcome.netErr m => (Except.error m, 1)
      | FetchOutcome.resp r =>
        if r.ok then
          match r.body with
          | none => (Except.error r.parseErrMsg, 1)
          | some b =>
            let models2 := models ++ pageModels b
            match b.nextPageToken with
            | some tok =>
              if tok = "" then (Except.ok models2, 1)
              else
                let rec2 := geminiPaginate oracle mkReq fuel models2 (some tok)
                (rec2.1, rec2.2 + 1)
            | none => (Except.ok models2, 1)
        else
          (Except.error ("模型列表获取失败: " ++ respErrMessage GeminiListBody.errorMessage r), 1)

/-- One full endpoint/auth attempt: paginate, then dedupe and sort on
success; an error propagates to the surrounding `catch`. -/
def geminiAttempt (oracle : Request → FetchOutcome GeminiListBody)
    (mkReq : Option String → Request) : Except String (List String) :=
  match (geminiPaginate oracle mkReq 20 [] none).1 with
  | Except.ok ms => Except.ok (dedupeAndSort ms)
  | Except.error m => Except.error m

/-- The Gemini discovery cascade over the candidate endpoints (source lines
155-227): per endpoint, query-parameter auth first, then header auth; the
first success returns; otherwise the last wrapped error is remembered and
eventually raised. -/
def geminiGo (cfg : AIConfig) (oracle : Request → FetchOutcome GeminiListBody) :
    List String → Option String → Except String (List String)
  | [], lastError => Except.error (lastError.getD "模型列表获取失败：未知错误")
  | e :: rest, lastError =>
    match geminiAttempt oracle (geminiQueryReq cfg e) with
    | Except.ok ms => Except.ok ms
    | Except.error _ =>
      match geminiAttempt oracle (geminiHeaderReq cfg e) with
      | Except.ok ms => Except.ok ms
      | Except.error m2 =>
        geminiGo cfg oracle rest (some ("Gemini 模型列表获取失败: " ++ formatNetworkError m2))

/-- The OpenAI model-listing request: `GET {base}/models` with bearer auth. -/
def openAIListReq (cfg : AIConfig) : Request :=
  { url := normalizeBaseUrl cfg.baseUrl openAIDefaultBase ++ "/models"
    headers := [("Authorization", "Bearer " ++ cfg.apiKey)] }

/-- The ids contributed by the OpenAI list body:
`(data?.data || []).map(m => m?.id).filter(Boolean)`. -/
def openAIListIds (b : OpenAIListBody) : List String :=
  b.data.filterMap (fun o => match o with
    | some s => if s = "" then none else some s
    | none => none)

/-- Model of the OpenAI branch of `listModels` (source lines 117-139):
single request, inner HTTP-error wrapping, outer catch adding the provider
prefix and the network-error formatter. -/
def listModelsOpenAI (cfg : AIConfig) (oracle : Request → FetchOutcome OpenAIListBody) :
    Except String (List String) :=
  match oracle (openAIListReq cfg) with
  | FetchOutcome.netErr m =>
    Except.error ("OpenAI 模型列表获取失败: " ++ formatNetworkError m)
  | FetchOutcome.resp r =>
    if r.ok then
      match r.body with
      | none => Except.error ("OpenAI 模型列表获取失败: " ++ formatNetworkError r.parseErrMsg)
      | some b => Except.ok (dedupeAndSort (openAIListIds b))
    else
      Except.error ("OpenAI 模型列表获取失败: " ++ formatNetworkError
        ("模型列表获取失败: " ++ respErrMessage OpenAIListBody.errorMessage r))

/-- Model of the exported `listModels` (source lines 113-228). The Gemini
and OpenAI network environments are the oracles `og` and `oo`. -/
def listModels (cfg : AIConfig) (og : Request → FetchOutcome GeminiListBody)
    (oo : Request → FetchOutcome OpenAIListBody) : Except String (List String) :=
  if cfg.apiKey = "" then Except.error "请先在设置中配置 API Key"
  else if cfg.provider = "openai" then listModelsOpenAI cfg oo
  else geminiGo cfg og (geminiEndpoints cfg) none

/-- One chat message `{ role, content }`. -/
structure ChatMsg where
  role : String
  content : String
deriving DecidableEq

/-- The OpenAI chat-completions request body plus URL and headers. -/
structure ChatReq where
  url : String
  headers : List (String × String)
  model : String
  messages : List ChatMsg
  temperature : Option Rat
deriving DecidableEq

/-- Parsed body shape of the chat response:
`{ error?: { message? }, choices?: [{ message?: { content? } }] }`
(the nested `choices[0].message.content` access is collapsed into one
optional field). -/
structure ChatBody where
  errorMessage : Option String := none
  content : Option String := none
deriving DecidableEq

/-- Model of `callOpenAIChat` (source lines 14-43). -/
def callOpenAIChat (cfg : AIConfig) (messages : List ChatMsg) (systemInstruction : Option String)
    (oracle : ChatReq → FetchOutcome ChatBody) : Except String String :=
  let baseUrl := normalizeBaseUrl cfg.baseUrl openAIDefaultBase
  let finalMessages :=
    match systemInstruction with
    | some s => if s = "" then messages else { role := "system", content := s } :: messages
    | none => messages
  match oracle { url := baseUrl ++ "/chat/completions"
                 headers := [("Content-Type", "application/json"),
                             ("Authorization", "Bearer " ++ cfg.apiKey)]
                 model := jsOr cfg.chatModel "gpt-3.5-turbo"
                 messages := finalMessages
                 temperature := cfg.temperature } with
  | FetchOutcome.netErr m => Except.error m
  | FetchOutcome.resp r =>
    if r.ok then
      match r.body with
      | none => Except.error r.parseErrMsg
      | some b => Except.ok (jsOr b.content "AI returned empty response")
    else
      -- `error.error?.message || 'OpenAI Request Failed: ' + status`, where a
      -- non-JSON error body degrades to `{ error: { message: statusText } }`.
      let em := match r.body with
                | some b => b.errorMessage
                | none => some r.statusText
      Except.error (jsOr em ("OpenAI Request Failed: " ++ toString r.status))

/-- `callOpenAIImage`'s size mapping (source lines 48-52): square default,
`includes('1024')` selects square, the exact string `'16:9'` selects the
DALL-E 3 wide rectangle. -/
def openAISizeStr (size : String) : String :=
  if strIncludes size "1024" then "1024x1024"
  else if size = "16:9" then "1792x1024"
  else "1024x1024"

/-- The OpenAI image-generations request body plus URL and headers. -/
structure ImageReq where
  url : String
  headers : List (String × String)
  model : String
  prompt : String
  n : Nat
  size : String
  responseFormat : String
deriving DecidableEq

/-- One entry of the image response's `data` array. -/
structure ImgEntry where
  b64Json : Option String := none
  url : Option String := none
deriving DecidableEq

/-- Parsed body shape of the image response:
`{ error?: { message? }, data?: [{ b64_json?, url? }] }`.
`data = none` models an absent `data` array (reading `[0]` of it throws). -/
structure ImageBody where
  errorMessage : Option String := none
  data : Option (List ImgEntry) := none
deriving DecidableEq

/-- The request `callOpenAIImage` issues (source lines 54-67). -/
def openAIImageReq (cfg : AIConfig) (prompt size : String) : ImageReq :=
  { url := normalizeBaseUrl cfg.baseUrl openAIDefaultBase ++ "/images/generations"
    headers := [("Content-Type", "application/json"),
                ("Authorization", "Bearer " ++ cfg.apiKey)]
    model := jsOr cfg.imageModel "dall-e-3"
    prompt := prompt
    n := 1
    size := openAISizeStr size
    responseFormat := "b64_json" }

/-- Model of `callOpenAIImage` (source lines 45-80): on success, prefer an
inline base64 payload as a PNG data URI, else fall back to
`data.data[0]?.url || ''`. An absent `data` array raises the JS TypeError. -/
def callOpenAIImage (cfg : AIConfig) (prompt size : String)
    (oracle : ImageReq → FetchOutcome ImageBody) : Except String String :=
  match oracle (openAIImageReq cfg prompt size) with
  | FetchOutcome.netErr m => Except.error m
  | FetchOutcome.resp r =>
    if r.ok then
      match r.body with
      | none => Except.error r.parseErrMsg
      | some b =>
        match b.data with
        | none => Except.error "Cannot read properties of undefined (reading 0)"
        | some entries =>
          let first := entries.head?
          match jsStr (first.bind ImgEntry.b64Json) with
          | some s => Except.ok ("data:image/png;base64," ++ s)
          | none => Except.ok ((jsStr (first.bind ImgEntry.url)).getD "")
    else
      let em := match r.body with
                | some b => b.errorMessage
                | none => some r.statusText
      Except.error (jsOr em ("OpenAI Image Request Failed: " ++ toString r.status))

/-- A Gemini `ai.models.generateContent` text request (model, flattened
contents, generation config). -/
structure GeminiGenReq where
  model : String
  contents : String
  systemInstruction : Option String := none
  temperature : Option Rat := none
deriving DecidableEq

/-- Outcome of a Gemini SDK text-generation call: the response's optional
`text` field, or a thrown error with message `msg`. -/
inductive GeminiGenOutcome where
  | ok (text : Option String)
  | err (msg : String)
deriving DecidableEq

/-- A Gemini `ai.models.generateImages` request (Imagen models). -/
structure GemImagesReq where
  model : String
  prompt : String
  numberOfImages : Nat
  aspectRatio : String
  outputMimeType : String
deriving DecidableEq

/-- Outcome of `generateImages`: the base64 image bytes of each generated
image, or a thrown error. -/
inductive GemImagesOutcome where
  | ok (imageBytes : List String)
  | err (msg : String)
deriving DecidableEq

/-- One part of a Gemini multimodal response: `inlineData` is present iff
`inlineB64` is `some` (its `data` bytes), with its optional `mimeType`. -/
structure GemGenPart where
  inlineB64 : Option String := none
  mimeType : Option String := none
deriving DecidableEq

/-- A Gemini `generateContent` image request (non-Imagen models). -/
structure GemContentReq where
  model : String
  promptText : String
  aspectRatio : String
deriving DecidableEq

/-- Outcome of the multimodal image call: the optional
`candidates?.[0]?.content?.parts` array, or a thrown error. -/
inductive GemContentOutcome where
  | ok (parts : Option (List GemGenPart))
  | err (msg : String)
deriving DecidableEq

/-- The fixed chat system instruction. -/
def chatSystemInstruction : String :=
  "你是一个专业的微信公众号文章编辑助手。请用中文回答。保持回答简洁、专业。"

/-- Model of the exported `generateChatResponse` (source lines 232-269). -/
def generateChatResponse (cfg : AIConfig) (prompt : String) (history : List HistTurn)
    (co : ChatReq → FetchOutcome ChatBody) (go : GeminiGenReq → GeminiGenOutcome) :
    Except String String :=
  if cfg.apiKey = "" then Except.error "请先在设置中配置 Chat API Key"
  else if cfg.provider = "openai" then
    let messages := (history.map (fun h =>
      { role := if h.role = "model" then "assistant" else "user", content := h.text }))
      ++ [{ role := "user", content := prompt }]
    callOpenAIChat cfg messages (some chatSystemInstruction) co
  else
    let fullContext := (history.foldl (fun acc h =>
      acc ++ (if h.role = "user" then "User" else "Model") ++ ": " ++ h.text ++ "\n") "")
      ++ "User: " ++ prompt
    match go { model := jsOr cfg.chatModel "gemini-3-flash-preview"
               contents := fullContext
               systemInstruction := some chatSystemInstruction
               temperature := cfg.temperature } with
    | GeminiGenOutcome.ok t => Except.ok (jsOr t "AI 未返回内容")
    | GeminiGenOutcome.err m => Except.error (if m = "" then "AI 请求失败" else m)

/-- The fixed reformatting system prompt of `generateFormattedContent`. -/
def formatSystemPrompt : String :=
  "你是一个微信公众号排版专家。请对用户提供的文章内容进行自动排版优化，使其符合公众号阅读习惯。\n  具体要求：\n  1. 结构优化：自动识别文章逻辑，使用 Markdown 标题语法 (#, ##, ###) 划分层级 (H1-H3)。\n  2. 段落优化：将过长的段落拆分为简短的段落，适当增加空行，提升移动端阅读体验。\n  3. 重点突出：识别关键信息、金句或总结，使用引用块 (>) 包裹；对核心关键词使用加粗 (**)。\n  4. 列表优化：将步骤、要点等内容转换为无序列表 (-) 或有序列表 (1.)。\n  5. 严禁篡改：保持原文核心意思和文字内容不变，仅做结构和样式的Markdown语法调整。\n  6. 输出要求：直接返回优化后的 Markdown 源码，不要包含 \"好的\"、\"优化如下\" 等任何解释性废话。"

/-- The Gemini request built by `generateFormattedContent` (source lines
291-298): user content as contents, the reformatting ruleset as system
instruction, temperature pinned to 0.3. -/
def gemFormatReq (cfg : AIConfig) (content : String) : GeminiGenReq :=
  { model := jsOr cfg.chatModel "gemini-3-flash-preview"
    contents := content
    systemInstruction := some formatSystemPrompt
    temperature := some (0.3 : Rat) }

/-- Model of the exported `generateFormattedContent` (source lines 271-305). -/
def generateFormattedContent (cfg : AIConfig) (content : String)
    (co : ChatReq → FetchOutcome ChatBody) (go : GeminiGenReq → GeminiGenOutcome) :
    Except String String :=
  if cfg.apiKey = "" then Except.error "请先配置 Chat API Key"
  else if cfg.provider = "openai" then
    callOpenAIChat cfg [{ role := "user", content := content }] (some formatSystemPrompt) co
  else
    match go (gemFormatReq cfg content) with
    | GeminiGenOutcome.ok t => Except.ok (jsOr t content)
    | GeminiGenOutcome.err m => Except.error (if m = "" then "排版请求失败" else m)

/-- Model of the exported `generateImage` (source lines 307-373). -/
def generateImage (cfg : AIConfig) (prompt size : String)
    (io : ImageReq → FetchOutcome ImageBody)
    (gio : GemImagesReq → GemImagesOutcome)
    (gco : GemContentReq → GemContentOutcome) : Except String String :=
  if cfg.apiKey = "" then Except.error "请先在设置中配置 绘图 API Key"
  else if cfg.provider = "openai" then callOpenAIImage cfg prompt size io
  else
    let modelName := jsOr cfg.imageModel "imagen-4.0-generate-001"
    let a1 := if strIncludes size "16:9" then "16:9" else "1:1"
    let aspectRatio := if strIncludes size "4:3" then "4:3" else a1
    let result : Except String String :=
      if strIncludes (strToLower modelName) "imagen" then
        match gio { model := modelName, prompt := prompt, numberOfImages := 1,
                    aspectRatio := aspectRatio, outputMimeType := "image/jpeg" } with
        | GemImagesOutcome.err m => Except.error m
        | GemImagesOutcome.ok images =>
          match images with
          | b64 :: _ => Except.ok ("data:image/jpeg;base64," ++ b64)
          | [] => Except.error "未生成图片"
      else
        match gco { model := modelName, promptText := prompt, aspectRatio := aspectRatio } with
        | GemContentOutcome.err m => Except.error m
        | GemContentOutcome.ok parts =>
          match parts with
          | some ps =>
            match ps.find? (fun p => p.inlineB64.isSome) with
            | some p =>
              Except.ok ("data:" ++ jsOr p.mimeType "image/png" ++ ";base64,"
                ++ (p.inlineB64.getD ""))
            | none => Except.error "未生成图片"
          | none => Except.error "未生成图片"
    match result with
    | Except.ok s => Except.ok s
    | Except.error m =>
      Except.error (if m = "" then "图片生成失败 (请检查模型权限/BaseURL)" else m)

/-- The theme-CSS system prompt as a function of the user's style prompt. -/
def themeSystemPrompt (prompt : String) : String :=
  "你是一个CSS专家。请根据用户的描述，生成一段用于微信公众号文章预览的CSS代码。\n   HTML结构在一个 id=\"preview-root\" 的div中。\n   请只返回纯CSS代码，不要包含markdown代码块标记（如 ```css ）。\n   必须包含针对 #preview-root h1, h2, p, blockquote, img, li 的样式。\n   风格必须符合：" ++ prompt

/-- Strip markdown code fences and trim, as applied to generated theme CSS:
`css.replace(/```css/g, '').replace(/```/g, '').trim()`. -/
def stripCssFences (css : String) : String :=
  jsTrim ((css.replace "```css" "").replace "```" "")

/-- Model of the exported `generateThemeCSS` (source lines 375-405). -/
def generateThemeCSS (cfg : AIConfig) (prompt : String)
    (co : ChatReq → FetchOutcome ChatBody) (go : GeminiGenReq → GeminiGenOutcome) :
    Except String String :=
  if cfg.apiKey = "" then Except.error "请先配置 Chat API Key 以生成主题"
  else if cfg.provider = "openai" then
    match callOpenAIChat cfg [{ role := "user", content := prompt }]
        (some (themeSystemPrompt prompt)) co with
    | Except.ok css => Except.ok (stripCssFences css)
    | Except.error m => Except.error m
  else
    match go { model := jsOr cfg.chatModel "gemini-3-flash-preview"
               contents := prompt
               systemInstruction := some (themeSystemPrompt prompt)
               temperature := some (0.7 : Rat) } with
    | GeminiGenOutcome.ok t => Except.ok (stripCssFences (jsOr t ""))
    | GeminiGenOutcome.err m => Except.error m

/-- First successful result in a list of attempt outcomes. -/
def firstOk : List (Except String (List String)) → Option (List String)
  | [] => none
  | Except.ok ms :: _ => some ms
  | Except.error _ :: rest => firstOk rest

/-- The list of attempt outcomes evaluated at every
(endpoint, auth-strategy) candidate, in the discovery preference order:
per endpoint, query-parameter auth before header auth. -/
def geminiAttemptsOver (cfg : AIConfig) (og : Request → FetchOutcome GeminiListBody) :
    List String → List (Except String (List String))
  | [] => []
  | e :: rest =>
    geminiAttempt og (geminiQueryReq cfg e) :: geminiAttempt og (geminiHeaderReq cfg e)
      :: geminiAttemptsOver cfg og rest

/-- All attempt outcomes of a discovery run, in order. -/
def geminiAttempts (cfg : AIConfig) (og : Request → FetchOutcome GeminiListBody) :
    List (Except String (List String)) :=
  geminiAttemptsOver cfg og (geminiEndpoints cfg)

/-- The default Gemini endpoint used when no custom base URL is set. -/
def defaultGeminiEndpoint : String :=
  "https://generativelanguage.googleapis.com/v1beta/models"

/-- Concrete configuration for the Gemini discovery scenario runs. -/
def gemCfg : AIConfig := { provider := "gemini", apiKey := "k" }

/-- Oracle of the C1 scenario: query-parameter auth on the default endpoint
answers HTTP 403, header auth answers one page with `models/gemini-pro`. -/
def c1og : Request → FetchOutcome GeminiListBody := fun req =>
  if req = geminiHeaderReq gemCfg defaultGeminiEndpoint none then
    FetchOutcome.resp { ok := true, body := some { models := [some "models/gemini-pro"] } }
  else
    FetchOutcome.resp { ok := false, status := 403, statusText := "Forbidden" }

/-- Inert OpenAI-list oracle (never reached in Gemini runs). -/
def dummyOpenAIOracle : Request → FetchOutcome OpenAIListBody :=
  fun _ => FetchOutcome.netErr "unreachable"

/-- Inert Gemini-list oracle. -/
def dummyGemListOracle : Request → FetchOutcome GeminiListBody :=
  fun _ => FetchOutcome.netErr "unreachable"

/-- Inert chat oracle. -/
def dummyChatOracle : ChatReq → FetchOutcome ChatBody :=
  fun _ => FetchOutcome.netErr "unreachable"

/-- Inert Gemini text-generation oracle. -/
def dummyGemGen : GeminiGenReq → GeminiGenOutcome :=
  fun _ => GeminiGenOutcome.err "unreachable"

/-- Inert image oracle. -/
def dummyImgOracle : ImageReq → FetchOutcome ImageBody :=
  fun _ => FetchOutcome.netErr "unreachable"

/-- Inert Imagen oracle. -/
def dummyGemImages : GemImagesReq → GemImagesOutcome :=
  fun _ => GemImagesOutcome.err "unreachable"

/-- Inert Gemini multimodal oracle. -/
def dummyGemContent : GemContentReq → GemContentOutcome :=
  fun _ => GemContentOutcome.err "unreachable"

/-- A response page carrying one model and a next-page token (used to drive
the pagination guard to its fetch bound). -/
def c2PageBody : GeminiListBody := { models := [some "models/a"], nextPageToken := some "t" }

/-- Oracle that always answers `c2PageBody`, so pagination would never end
on its own. -/
def c2PageOracle : Request → FetchOutcome GeminiListBody :=
  fun _ => FetchOutcome.resp { ok := true, body := some c2PageBody }

/-- A single page carrying 501 distinct model names. -/
def c2BigBody : GeminiListBody :=
  { models := (List.range 501).map (fun i => some ("models/m" ++ toString i)) }

/-- Oracle that answers the 501-entry page (no next-page token). -/
def c2BigOracle : Request → FetchOutcome GeminiListBody :=
  fun _ => FetchOutcome.resp { ok := true, body := some c2BigBody }

/-- The 501 stripped model names of `c2BigBody`. -/
def c2BigList : List String := (List.range 501).map (fun i => "m" ++ toString i)

/-- Oracle whose first (query-auth) attempt succeeds with a doubled
`models/models/...` name. -/
def c5og : Request → FetchOutcome GeminiListBody := fun _ =>
  FetchOutcome.resp { ok := true, body := some { models := [some "models/models/gemini-pro"] } }

/-- Concrete OpenAI-provider configuration. -/
def openaiCfg : AIConfig := { provider := "openai", apiKey := "k" }

/-- Configuration with an empty API key. -/
def emptyKeyCfg : AIConfig := { provider := "openai", apiKey := "" }

/-- An image entry with neither `b64_json` nor `url`. -/
def c8Entry : ImgEntry := {}

/-- Successful image response whose only data entry has no payload. -/
def c8Resp : HttpResponse ImageBody := { ok := true, body := some { data := some [c8Entry] } }

/-- Image oracle answering `c8Resp`. -/
def c8io : ImageReq → FetchOutcome ImageBody := fun _ => FetchOutcome.resp c8Resp

/-- Gemini text oracle answering a structurally valid response with an
absent text field. -/
def c9go : GeminiGenReq → GeminiGenOutcome := fun _ => GeminiGenOutcome.ok none

/-- An HTTP 403 response with no parseable body, for the OpenAI list path. -/
def c10Resp : HttpResponse OpenAIListBody := { ok := false, status := 403, statusText := "Forbidden" }

/-- OpenAI list oracle answering `c10Resp`. -/
def c10oo : Request → FetchOutcome OpenAIListBody := fun _ => FetchOutcome.resp c10Resp

theorem listLe_total (as bs : List Char) : listLe as bs = true ∨ listLe bs as = true := by
  induction as generalizing bs with
  | nil => left; rfl
  | cons a as ih =>
    cases bs with
    | nil => right; rfl
    | cons b bs =>
      by_cases h1 : a.toNat < b.toNat
      · left; simp [listLe, h1]
      · by_cases h2 : b.toNat < a.toNat
        · right; simp [listLe, h2]
        · rcases ih bs with h | h <;> [left; right] <;> simp [listLe, h1, h2, h]

theorem listLe_trans {as bs cs : List Char} (h1 : listLe as bs = true)
    (h2 : listLe bs cs = true) : listLe as cs = true := by
  induction as generalizing bs cs with
  | nil => rfl
  | cons a as ih =>
    cases bs with
    | nil => simp [listLe] at h1
    | cons b bs =>
      cases cs with
      | nil => simp [listLe] at h2
      | cons c cs =>
        simp only [listLe] at h1 h2 ⊢
        split_ifs at h1 h2 ⊢ with g1 g2 g3 g4 g5 g6 <;> try omega
        all_goals try rfl
        all_goals try (exact ih h1 h2)

instance : IsTotal String strLeR := ⟨fun a b => listLe_total a.data b.data⟩

instance : IsTrans String strLeR := ⟨fun _ _ _ h1 h2 => listLe_trans h1 h2⟩

theorem mem_dedupFirstAux {x : String} :
    ∀ {l seen : List String}, x ∈ dedupFirstAux l seen ↔ x ∈ l ∧ x ∉ seen := by
  intro l
  induction l with
  | nil => intro seen; simp [dedupFirstAux]
  | cons a l ih =>
    intro seen
    by_cases h : a ∈ seen
    · rw [dedupFirstAux, if_pos h, ih]
      constructor
      · rintro ⟨hx, hs⟩; exact ⟨List.mem_cons_of_mem a hx, hs⟩
      · rintro ⟨hx, hs⟩
        rcases List.mem_cons.mp hx with rfl | hx
        · exact absurd h hs
        · exact ⟨hx, hs⟩
    · rw [dedupFirstAux, if_neg h]
      constructor
      · intro hx
        rcases List.mem_cons.mp hx with rfl | hx
        · exact ⟨List.mem_cons_self x l, h⟩
        · rcases ih.mp hx with ⟨hl, hs⟩
          exact ⟨List.mem_cons_of_mem a hl, fun hmem => hs (List.mem_cons_of_mem a hmem)⟩
      · rintro ⟨hx, hs⟩
        rcases List.mem_cons.mp hx with rfl | hx
        · exact List.mem_cons_self x _
        · by_cases hxa : x = a
          · subst hxa; exact List.mem_cons_self x _
          · exact List.mem_cons_of_mem a
              (ih.mpr ⟨hx, fun hmem => by
                rcases List.mem_cons.mp hmem with h1 | h1
                · exact hxa h1
                · exact hs h1⟩)

theorem nodup_dedupFirstAux : ∀ (l seen : List String), (dedupFirstAux l seen).Nodup := by
  intro l
  induction l with
  | nil => intro seen; simp [dedupFirstAux]
  | cons a l ih =>
    intro seen
    by_cases h : a ∈ seen
    · rw [dedupFirstAux, if_pos h]; exact ih seen
    · rw [dedupFirstAux, if_neg h]
      refine List.nodup_cons.mpr ⟨?_, ih (a :: seen)⟩
      intro hmem
      exact (mem_dedupFirstAux.mp hmem).2 (List.mem_cons_self a seen)

theorem nodup_dedupFirst (l : List String) : (dedupFirst l).Nodup :=
  nodup_dedupFirstAux l []

theorem mem_dedupFirst {x : String} {l : List String} : x ∈ dedupFirst l ↔ x ∈ l := by
  rw [dedupFirst, mem_dedupFirstAux]
  simp

theorem dedupeAndSort_nodup (l : List String) : (dedupeAndSort l).Nodup :=
  ((List.perm_insertionSort strLeR _).nodup_iff).mpr (nodup_dedupFirst _)

theorem dedupeAndSort_sorted (l : List String) : List.Sorted strLeR (dedupeAndSort l) :=
  List.sorted_insertionSort strLeR _

theorem mem_dedupeAndSort {x : String} {l : List String} :
    x ∈ dedupeAndSort l ↔ x ≠ "" ∧ x ∈ l.map jsTrim := by
  rw [dedupeAndSort, List.mem_insertionSort, mem_dedupFirst, List.mem_filter]
  simp [and_comm]

theorem strDataEq : ∀ {a b : String}, a.data = b.data → a = b := by
  intro a b h
  cases a; cases b; exact congrArg String.mk h

theorem strAppendData (a b : String) : (a ++ b).data = a.data ++ b.data := by
  cases a; cases b; rfl

theorem strMkData (s : String) : String.mk s.data = s := by
  cases s; rfl

theorem strEmptyIffDataNil {s : String} : s = "" ↔ s.data = [] := by
  constructor
  · intro h; rw [h]
  · intro h; exact strDataEq h

theorem jsOr_of_jsStr_none {t : Option String} (h : jsStr t = none) (d : String) :
    jsOr t d = d := by
  cases t with
  | none => rfl
  | some s =>
    by_cases hs : s = ""
    · simp [jsOr, hs]
    · simp [jsStr, hs] at h

theorem stripGeminiModelPfx_strips (n : String) :
    stripGeminiModelPfx ("models/" ++ n) = n := by
  have hd : ("models/" ++ n).data = 'm' :: 'o' :: 'd' :: 'e' :: 'l' :: 's' :: '/' :: n.data := by
    rw [strAppendData]; rfl
  rw [stripGeminiModelPfx, hd]
  exact strMkData n

theorem stripGeminiModelPfx_cases (n : String) :
    "models/" ++ stripGeminiModelPfx n = n ∨ stripGeminiModelPfx n = n := by
  rw [stripGeminiModelPfx]
  split
  case _ rest heq =>
    left
    apply strDataEq
    rw [strAppendData, heq]
    rfl
  case _ =>
    right; rfl

theorem formatNetworkError_self_prefixed {m : String} (h : m ≠ "") :
    ∃ suffix, formatNetworkError m = m ++ suffix := by
  rw [formatNetworkError, errToMsg, if_neg h]
  by_cases hf : strIncludes (strToLower m) "failed to fetch" = true
  · exact ⟨"（可能是浏览器跨域 CORS 或网络问题）", by simp [hf]⟩
  · refine ⟨"", ?_⟩
    simp only [Bool.not_eq_true] at hf
    simp [hf]

theorem strNeEmpty_append {a b : String} (h : a ≠ "") : a ++ b ≠ "" := by
  intro hc
  apply h
  rw [strEmptyIffDataNil, strAppendData] at hc
  rw [strEmptyIffDataNil]
  exact (List.append_eq_nil.mp hc).1

theorem geminiPaginate_count_le (o : Request → FetchOutcome GeminiListBody)
    (mk : Option String → Request) :
    ∀ (fuel : Nat) (models : List String) (tok : Option String),
      (geminiPaginate o mk fuel models tok).2 ≤ fuel := by
  intro fuel
  induction fuel with
  | zero => intro models tok; simp [geminiPaginate]
  | succ n ih =>
    intro models tok
    rw [geminiPaginate]
    by_cases h5 : models.length > 500
    · simp [h5]
    · cases ho : o (mk tok) with
      | netErr m => simp [h5, ho]
      | resp r =>
        by_cases hok : r.ok = true
        · cases hb : r.body with
          | none => simp [h5, ho, hok, hb]
          | some b =>
            cases ht : b.nextPageToken with
            | none => simp [h5, ho, hok, hb, ht]
            | some tok2 =>
              by_cases he : tok2 = ""
              · simp [h5, ho, hok, hb, ht, he]
              · have h2 := ih (models ++ pageModels b) (some tok2)
                simp [h5, ho, hok, hb, ht, he]
                omega
        · simp [h5, ho, hok]

theorem geminiPaginate_len_le (o : Request → FetchOutcome GeminiListBody)
    (mk : Option String → Request) (p : Nat)
    (hp : ∀ req r, o req = FetchOutcome.resp r →
      ∀ b, r.body = some b → (pageModels b).length ≤ p) :
    ∀ (fuel : Nat) (models : List String) (tok : Option String),
      models.length ≤ 500 + p →
      ∀ ms, (geminiPaginate o mk fuel models tok).1 = Except.ok ms → ms.length ≤ 500 + p := by
  intro fuel
  induction fuel with
  | zero =>
    intro models tok hlen ms h
    simp only [geminiPaginate] at h
    cases h
    exact hlen
  | succ n ih =>
    intro models tok hlen ms h
    rw [geminiPaginate] at h
    by_cases h5 : models.length > 500
    · rw [if_pos h5] at h
      cases h
      exact hlen
    · cases ho : o (mk tok) with
      | netErr m => simp [h5, ho] at h
      | resp r =>
        by_cases hok : r.ok = true
        · cases hb : r.body with
          | none => simp [h5, ho, hok, hb] at h
          | some b =>
            have hpage : (pageModels b).length ≤ p := hp _ _ ho _ hb
            have hlen2 : (models ++ pageModels b).length ≤ 500 + p := by
              rw [List.length_append]
              omega
            cases ht : b.nextPageToken with
            | none =>
              simp [h5, ho, hok, hb, ht] at h
              rw [← h]
              exact hlen2
            | some tok2 =>
              by_cases he : tok2 = ""
              · simp [h5, ho, hok, hb, ht, he] at h
                rw [← h]
                exact hlen2
              · simp only [h5, ho, hok, hb, ht, he] at h
                simp [if_neg h5] at h
                exact ih _ _ hlen2 ms h
        · simp [h5, ho, hok] at h

theorem geminiAttempt_ok_shape {o : Request → FetchOutcome GeminiListBody}
    {mk : Option String → Request} {ms : List String}
    (h : geminiAttempt o mk = Except.ok ms) : ∃ raw, ms = dedupeAndSort raw := by
  rw [geminiAttempt] at h
  cases hp : (geminiPaginate o mk 20 [] none).1 with
  | ok raw =>
    rw [hp] at h
    exact ⟨raw, by cases h; rfl⟩
  | error m => rw [hp] at h; cases h

theorem geminiGo_firstOk (cfg : AIConfig) (og : Request → FetchOutcome GeminiListBody) :
    ∀ (eps : List String) (last : Option String) (ms : List String),
      firstOk (geminiAttemptsOver cfg og eps) = some ms →
      geminiGo cfg og eps last = Except.ok ms := by
  intro eps
  induction eps with
  | nil => intro last ms h; simp [geminiAttemptsOver, firstOk] at h
  | cons e rest ih =>
    intro last ms h
    rw [geminiAttemptsOver] at h
    rw [geminiGo]
    cases hq : geminiAttempt og (geminiQueryReq cfg e) with
    | ok ms1 =>
      rw [hq] at h
      rw [firstOk] at h
      cases h
      rfl
    | error m1 =>
      rw [hq] at h
      rw [firstOk] at h
      cases hh : geminiAttempt og (geminiHeaderReq cfg e) with
      | ok ms2 =>
        rw [hh] at h
        rw [firstOk] at h
        cases h
        rfl
      | error m2 =>
        rw [hh] at h
        rw [firstOk] at h
        exact ih _ ms h

theorem geminiGo_ok_shape (cfg : AIConfig) (og : Request → FetchOutcome GeminiListBody) :
    ∀ (eps : List String) (last : Option String) (ms : List String),
      geminiGo cfg og eps last = Except.ok ms → ∃ raw, ms = dedupeAndSort raw := by
  intro eps
  induction eps with
  | nil => intro last ms h; simp [geminiGo] at h
  | cons e rest ih =>
    intro last ms h
    rw [geminiGo] at h
    cases hq : geminiAttempt og (geminiQueryReq cfg e) with
    | ok ms1 =>
      rw [hq] at h
      cases h
      exact geminiAttempt_ok_shape hq
    | error m1 =>
      rw [hq] at h
      cases hh : geminiAttempt og (geminiHeaderReq cfg e) with
      | ok ms2 =>
        rw [hh] at h
        cases h
        exact geminiAttempt_ok_shape hh
      | error m2 =>
        rw [hh] at h
        exact ih _ ms h

/-- Claim C1: in Gemini discovery, the candidate endpoints are tried in
order with query-parameter auth before header auth per endpoint, and the
first attempt that succeeds determines the result of `listModels`
immediately: whenever the first successful entry of the ordered attempt
list (`firstOk` over `geminiAttempts`) is `ms`, discovery returns exactly
`Except.ok ms`, and that list is deduplicated (`Nodup`) and sorted. -/
theorem gemini_discovery_first_success (cfg : AIConfig)
    (og : Request → FetchOutcome GeminiListBody) (oo : Request → FetchOutcome OpenAIListBody)
    (hkey : cfg.apiKey ≠ "") (hprov : cfg.provider ≠ "openai") (ms : List String)
    (h : firstOk (geminiAttempts cfg og) = some ms) :
    listModels cfg og oo = Except.ok ms ∧ ms.Nodup ∧ List.Sorted strLeR ms := by
  have hgo : geminiGo cfg og (geminiEndpoints cfg) none = Except.ok ms :=
    geminiGo_firstOk cfg og _ none ms h
  obtain ⟨raw, rfl⟩ := geminiGo_ok_shape cfg og _ none ms hgo
  refine ⟨?_, dedupeAndSort_nodup raw, dedupeAndSort_sorted raw⟩
  rw [listModels, if_neg hkey, if_neg hprov]
  exact hgo

/-- Claim C1 (witness): the spec's scenario — query-parameter auth on the
default endpoint answers HTTP 403, header auth on the same endpoint answers
`{models: [{name: 'models/gemini-pro'}]}` — yields exactly
`['gemini-pro']`. -/
theorem gemini_discovery_first_success_witness :
    gemCfg.apiKey ≠ "" ∧
    listModels gemCfg c1og dummyOpenAIOracle = Except.ok ["gemini-pro"] :=
  ⟨by decide,
   (gemini_discovery_first_success gemCfg c1og dummyOpenAIOracle (by decide) (by decide)
      ["gemini-pro"] (by decide)).1⟩

/-- Claim C7: `dedupeAndSort` output has no duplicates, is sorted ascending
under the modelled comparison, and consists exactly of the nonempty trimmed
entries of the input. -/
theorem dedupeAndSort_spec (l : List String) :
    (dedupeAndSort l).Nodup ∧ List.Sorted strLeR (dedupeAndSort l) ∧
      ∀ s, s ∈ dedupeAndSort l ↔ s ≠ "" ∧ s ∈ l.map jsTrim :=
  ⟨dedupeAndSort_nodup l, dedupeAndSort_sorted l, fun _ => mem_dedupeAndSort⟩

/-- Claim C7 (witness): on `["b", " a", "b", ""]` the output contains the
trimmed `"a"` and is duplicate-free. -/
theorem dedupeAndSort_spec_witness :
    "a" ∈ dedupeAndSort ["b", " a", "b", ""] ∧ (dedupeAndSort ["b", " a", "b", ""]).Nodup :=
  ⟨((dedupeAndSort_spec ["b", " a", "b", ""]).2.2 "a").mpr (by decide),
   (dedupeAndSort_spec ["b", " a", "b", ""]).1⟩

/-- Claim C3 (counterexample): the normalization is not idempotent on every
input — `"http://h//"` normalizes to `"http://h/"`, which normalizes again
to `"http://h"`, because `replace(/\/$/, '')` strips only one slash. -/
theorem normalizeBaseUrl_not_idempotent :
    normalizeBaseUrl (some (normalizeBaseUrl (some "http://h//") openAIDefaultBase))
        openAIDefaultBase
      ≠ normalizeBaseUrl (some "http://h//") openAIDefaultBase := by decide

/-- Claim C3 (amended): the normalization is idempotent for every input that
does not end in two (or more) slashes and is not the single-slash string
(the two families the counterexample exhibits). -/
theorem normalizeBaseUrl_idempotent_amended (x : String)
    (h2 : endsWithTwoSlashes x = false) (h1 : x ≠ "/") :
    normalizeBaseUrl (some (normalizeBaseUrl (some x) openAIDefaultBase)) openAIDefaultBase
      = normalizeBaseUrl (some x) openAIDefaultBase := by
  by_cases hx : x = ""
  · subst hx; decide
  · rcases hr : x.data.reverse with _ | ⟨c, rest⟩
    · exact absurd (strEmptyIffDataNil.mpr (List.reverse_eq_nil_iff.mp hr)) hx
    · by_cases hc : c = '/'
      · subst hc
        have hs : stripTrailingSlash x = String.mk rest.reverse := by
          rw [stripTrailingSlash, hr]
          rfl
        rcases rest with _ | ⟨d, rest2⟩
        · exfalso
          apply h1
          apply strDataEq
          rw [← List.reverse_reverse x.data, hr]
          rfl
        · have hd : d ≠ '/' := by
            intro hdd
            subst hdd
            rw [endsWithTwoSlashes, hr] at h2
            simp at h2
          simp only [normalizeBaseUrl, if_neg hx, hs]
          have hne : String.mk (d :: rest2).reverse ≠ "" := by
            rw [Ne, strEmptyIffDataNil]
            simp
          rw [if_neg hne]
          rw [stripTrailingSlash]
          have hrr : (String.mk (d :: rest2).reverse).data.reverse = d :: rest2 := by simp
          rw [hrr]
          split
          · next rest3 heq =>
            exfalso
            apply hd
            injection heq
          · rfl
      · have hs : stripTrailingSlash x = x := by
          rw [stripTrailingSlash, hr]
          split
          · next rest3 heq =>
            exfalso
            apply hc
            injection heq
          · rfl
        simp only [normalizeBaseUrl, if_neg hx, hs]

/-- Claim C3 (amended, witness): idempotence at a URL with one trailing
slash. -/
theorem normalizeBaseUrl_idempotent_amended_witness :
    normalizeBaseUrl (some (normalizeBaseUrl (some "https://h.example/v1/") openAIDefaultBase))
        openAIDefaultBase
      = normalizeBaseUrl (some "https://h.example/v1/") openAIDefaultBase :=
  normalizeBaseUrl_idempotent_amended "https://h.example/v1/" (by decide) (by decide)

/-- Claim C4 (counterexample): the size string `"16:9 wide"` contains
`"16:9"`, yet the requested pixel size is the square default, not
`"1792x1024"` — the code compares `size === '16:9'` exactly. -/
theorem openai_image_size_cex :
    strIncludes "16:9 wide" "16:9" = true ∧
    (openAIImageReq openaiCfg "p" "16:9 wide").size = "1024x1024" ∧
    ("1024x1024" : String) ≠ "1792x1024" := ⟨by decide, by decide, by decide⟩

/-- Claim C4 (amended): the requested pixel size defaults to `1024x1024`;
any size string containing `1024` requests the square; only the exact size
string `'16:9'` requests the wide `1792x1024`. -/
theorem openai_image_size_amended :
    (∀ cfg prompt s, strIncludes s "1024" = true →
      (openAIImageReq cfg prompt s).size = "1024x1024") ∧
    (∀ cfg prompt, (openAIImageReq cfg prompt "16:9").size = "1792x1024") ∧
    (∀ cfg prompt s, strIncludes s "1024" = false → s ≠ "16:9" →
      (openAIImageReq cfg prompt s).size = "1024x1024") := by
  refine ⟨?_, ?_, ?_⟩
  · intro cfg prompt s h
    simp [openAIImageReq, openAISizeStr, h]
  · intro cfg prompt
    rfl
  · intro cfg prompt s h hne
    simp [openAIImageReq, openAISizeStr, h, hne]

/-- Claim C4 (amended, witness): concrete sizes of each family. -/
theorem openai_image_size_amended_witness :
    (openAIImageReq openaiCfg "p" "x1024").size = "1024x1024" ∧
    (openAIImageReq openaiCfg "p" "16:9").size = "1792x1024" ∧
    (openAIImageReq openaiCfg "p" "big").size = "1024x1024" :=
  ⟨openai_image_size_amended.1 openaiCfg "p" "x1024" (by decide),
   openai_image_size_amended.2.1 openaiCfg "p",
   openai_image_size_amended.2.2 openaiCfg "p" "big" (by decide) (by decide)⟩

/-- Claim C5 (counterexample): a provider name `models/models/gemini-pro`
is stripped only once, so the returned discovery list contains
`models/gemini-pro`, which still begins with `models/`. -/
theorem gemini_strip_cex :
    listModels gemCfg c5og dummyOpenAIOracle = Except.ok ["models/gemini-pro"] ∧
    isPrefixOfB "models/".data "models/gemini-pro".data = true := ⟨by decide, by decide⟩

/-- Claim C5 (amended): every accumulated Gemini model name has exactly one
leading `models/` segment stripped when present (and is otherwise kept
verbatim, so a doubled prefix leaves a name still beginning with
`models/`); every entry accumulated from a page is the stripped form of a
provider-supplied name. -/
theorem gemini_strip_amended :
    (∀ n, stripGeminiModelPfx ("models/" ++ n) = n) ∧
    (∀ n, "models/" ++ stripGeminiModelPfx n = n ∨ stripGeminiModelPfx n = n) ∧
    (∀ b s, s ∈ pageModels b →
      ∃ o, o ∈ b.models ∧ s = stripGeminiModelPfx (o.getD "") ∧ s ≠ "") := by
  refine ⟨stripGeminiModelPfx_strips, stripGeminiModelPfx_cases, ?_⟩
  intro b s hs
  rw [pageModels] at hs
  rcases List.mem_filter.mp hs with ⟨hmap, hne⟩
  rcases List.mem_map.mp hmap with ⟨o, ho, rfl⟩
  exact ⟨o, ho, rfl, by simpa using hne⟩

/-- Claim C5 (amended, witness): concrete strip and page-membership
instances. -/
theorem gemini_strip_amended_witness :
    stripGeminiModelPfx ("models/" ++ "x") = "x" ∧
    (∃ o, o ∈ ({ models := [some "models/x"] } : GeminiListBody).models ∧
      "x" = stripGeminiModelPfx (o.getD "") ∧ "x" ≠ "") :=
  ⟨gemini_strip_amended.1 "x",
   gemini_strip_amended.2.2 { models := [some "models/x"] } "x" (by decide)⟩

set_option maxRecDepth 8000 in
/-- Claim C2 (counterexample): a single attempt can accumulate more than
500 model entries — one page carrying 501 names is accumulated whole, and
pagination only stops before the next fetch. -/
theorem gemini_pagination_cex :
    (geminiPaginate c2BigOracle (geminiQueryReq gemCfg defaultGeminiEndpoint) 20 [] none).1
      = Except.ok c2BigList ∧ 500 < c2BigList.length := ⟨by decide, by decide⟩

/-- Claim C2 (amended): per endpoint/auth attempt, at most 20 page fetches
are issued, and no new fetch starts once more than 500 entries are
accumulated — so when every page holds at most `p` entries the accumulation
is bounded by `500 + p`; hitting either bound ends pagination without
failing the attempt, whose partial results are still deduplicated, sorted
and returned. -/
theorem gemini_pagination_amended (o : Request → FetchOutcome GeminiListBody)
    (mk : Option String → Request) (p : Nat)
    (hp : ∀ req r, o req = FetchOutcome.resp r →
      ∀ b, r.body = some b → (pageModels b).length ≤ p) :
    (geminiPaginate o mk 20 [] none).2 ≤ 20 ∧
    (∀ ms, (geminiPaginate o mk 20 [] none).1 = Except.ok ms →
      ms.length ≤ 500 + p ∧ geminiAttempt o mk = Except.ok (dedupeAndSort ms)) ∧
    (∀ models tok, (geminiPaginate o mk 0 models tok).1 = Except.ok models) ∧
    (∀ n models tok, 500 < models.length →
      (geminiPaginate o mk (n + 1) models tok).1 = Except.ok models) := by
  refine ⟨geminiPaginate_count_le o mk 20 [] none, ?_, ?_, ?_⟩
  · intro ms h
    refine ⟨geminiPaginate_len_le o mk p hp 20 [] none (by simp) ms h, ?_⟩
    rw [geminiAttempt, h]
  · intro models tok; rfl
  · intro n models tok h5
    rw [geminiPaginate, if_pos h5]

/-- Claim C2 (amended, witness): an oracle that always produces a
next-page token is stopped by the fetch bound; the length bound stops an
attempt already holding 501 entries without failing it. -/
theorem gemini_pagination_amended_witness :
    (geminiPaginate c2PageOracle (geminiQueryReq gemCfg defaultGeminiEndpoint) 20 [] none).2 ≤ 20 ∧
    (geminiPaginate c2PageOracle (geminiQueryReq gemCfg defaultGeminiEndpoint) 0 ["x"] none).1
      = Except.ok ["x"] := by
  have h := gemini_pagination_amended c2PageOracle
    (geminiQueryReq gemCfg defaultGeminiEndpoint) 1 ?hp
  · exact ⟨h.1, h.2.2.1 ["x"] none⟩
  case hp =>
    intro req r hr b hb
    injection hr with h1
    subst h1
    injection hb with h2
    subst h2
    decide

/-- Claim C6: with an absent or empty API key every public operation fails
immediately with its localized configure-API-key message, for every
possible network environment (so no network call can influence, or be
required for, the outcome). -/
theorem no_api_key_fails_fast (cfg : AIConfig) (h : cfg.apiKey = "") :
    ∀ (prompt content size : String) (history : List HistTurn)
      (co : ChatReq → FetchOutcome ChatBody) (go : GeminiGenReq → GeminiGenOutcome)
      (io : ImageReq → FetchOutcome ImageBody) (gio : GemImagesReq → GemImagesOutcome)
      (gco : GemContentReq → GemContentOutcome) (og : Request → FetchOutcome GeminiListBody)
      (oo : Request → FetchOutcome OpenAIListBody),
      generateChatResponse cfg prompt history co go
        = Except.error "请先在设置中配置 Chat API Key" ∧
      generateFormattedContent cfg content co go = Except.error "请先配置 Chat API Key" ∧
      generateImage cfg prompt size io gio gco = Except.error "请先在设置中配置 绘图 API Key" ∧
      generateThemeCSS cfg prompt co go = Except.error "请先配置 Chat API Key 以生成主题" ∧
      listModels cfg og oo = Except.error "请先在设置中配置 API Key" := by
  intro prompt content size history co go io gio gco og oo
  refine ⟨?_, ?_, ?_, ?_, ?_⟩ <;>
    simp [generateChatResponse, generateFormattedContent, generateImage, generateThemeCSS,
      listModels, h]

/-- Claim C6 (witness): the configuration with provider `openai` and empty
key fails the chat operation with the configure message. -/
theorem no_api_key_fails_fast_witness :
    emptyKeyCfg.apiKey = "" ∧
    generateChatResponse emptyKeyCfg "hi" [] dummyChatOracle dummyGemGen
      = Except.error "请先在设置中配置 Chat API Key" :=
  ⟨rfl,
   (no_api_key_fails_fast emptyKeyCfg rfl "hi" "c" "s" [] dummyChatOracle dummyGemGen
      dummyImgOracle dummyGemImages dummyGemContent dummyGemListOracle dummyOpenAIOracle).1⟩

/-- Claim C8: when the image provider answers success but the first data
entry carries neither a base64 payload nor a URL, image generation returns
the empty string (no "no image generated" error). -/
theorem image_no_payload_empty (cfg : AIConfig) (prompt size : String)
    (io : ImageReq → FetchOutcome ImageBody) (gio : GemImagesReq → GemImagesOutcome)
    (gco : GemContentReq → GemContentOutcome)
    (r : HttpResponse ImageBody) (b : ImageBody) (e : ImgEntry) (rest : List ImgEntry)
    (hprov : cfg.provider = "openai") (hkey : cfg.apiKey ≠ "")
    (hresp : io (openAIImageReq cfg prompt size) = FetchOutcome.resp r)
    (hok : r.ok = true) (hb : r.body = some b) (hd : b.data = some (e :: rest))
    (hb64 : jsStr e.b64Json = none) (hurl : jsStr e.url = none) :
    generateImage cfg prompt size io gio gco = Except.ok "" ∧
    callOpenAIImage cfg prompt size io = Except.ok "" := by
  have hcall : callOpenAIImage cfg prompt size io = Except.ok "" := by
    rw [callOpenAIImage, hresp]
    simp [hok, hb, hd, hb64, hurl]
  exact ⟨by rw [generateImage, if_neg hkey, if_pos hprov]; exact hcall, hcall⟩

/-- Claim C8 (witness): a success response whose only entry has no payload
yields the empty string. -/
theorem image_no_payload_empty_witness :
    generateImage openaiCfg "p" "1024x1024" c8io dummyGemImages dummyGemContent
      = Except.ok "" :=
  (image_no_payload_empty openaiCfg "p" "1024x1024" c8io dummyGemImages dummyGemContent
    c8Resp { data := some [c8Entry] } c8Entry [] rfl (by decide) rfl rfl rfl rfl rfl rfl).1

/-- Claim C9: on the Gemini path of `generateFormattedContent`, a
structurally valid response whose text is empty or absent makes the
operation return the caller's input content unchanged. -/
theorem format_empty_text_returns_input (cfg : AIConfig) (content : String)
    (co : ChatReq → FetchOutcome ChatBody) (go : GeminiGenReq → GeminiGenOutcome)
    (hkey : cfg.apiKey ≠ "") (hprov : cfg.provider ≠ "openai") (t : Option String)
    (hresp : go (gemFormatReq cfg content) = GeminiGenOutcome.ok t)
    (ht : jsStr t = none) :
    generateFormattedContent cfg content co go = Except.ok content := by
  rw [generateFormattedContent, if_neg hkey, if_neg hprov, hresp]
  show Except.ok (jsOr t content) = Except.ok content
  rw [jsOr_of_jsStr_none ht]

/-- Claim C9 (witness): a response with absent text returns `"hello"`
unchanged. -/
theorem format_empty_text_returns_input_witness :
    generateFormattedContent gemCfg "hello" dummyChatOracle c9go = Except.ok "hello" :=
  format_empty_text_returns_input gemCfg "hello" dummyChatOracle c9go (by decide) (by decide)
    none rfl rfl

/-- Claim C10: on the OpenAI discovery path, every failure is raised as
`OpenAI 模型列表获取失败: ` + the network-error-formatted inner message; a
non-success HTTP response produces the doubly-prefixed message
`OpenAI 模型列表获取失败: 模型列表获取失败: <detail>` (the formatter keeps
its input as a prefix). -/
theorem openai_list_error_wrapping (cfg : AIConfig)
    (og : Request → FetchOutcome GeminiListBody) (oo : Request → FetchOutcome OpenAIListBody)
    (hprov : cfg.provider = "openai") (hkey : cfg.apiKey ≠ "") :
    (∀ e, listModels cfg og oo = Except.error e →
      ∃ inner, e = "OpenAI 模型列表获取失败: " ++ formatNetworkError inner) ∧
    (∀ r, oo (openAIListReq cfg) = FetchOutcome.resp r → r.ok = false →
      listModels cfg og oo = Except.error ("OpenAI 模型列表获取失败: " ++
        formatNetworkError
          ("模型列表获取失败: " ++ respErrMessage OpenAIListBody.errorMessage r))) ∧
    (∀ m, m ≠ "" → ∃ suffix, formatNetworkError m = m ++ suffix) := by
  have hlm : listModels cfg og oo = listModelsOpenAI cfg oo := by
    rw [listModels, if_neg hkey, if_pos hprov]
  refine ⟨?_, ?_, fun m hm => formatNetworkError_self_prefixed hm⟩
  · intro e he
    rw [hlm, listModelsOpenAI] at he
    cases ho : oo (openAIListReq cfg) with
    | netErr m =>
      rw [ho] at he
      exact ⟨m, (Except.error.inj he).symm⟩
    | resp r =>
      rw [ho] at he
      by_cases hok : r.ok = true
      · cases hb : r.body with
        | none =>
          simp only [hok, if_true, hb] at he
          exact ⟨r.parseErrMsg, (Except.error.inj he).symm⟩
        | some b =>
          simp only [hok, if_true, hb] at he
          cases he
      · simp only [Bool.not_eq_true] at hok
        simp only [hok, Bool.false_eq_true, if_false] at he
        exact ⟨"模型列表获取失败: " ++ respErrMessage OpenAIListBody.errorMessage r,
          (Except.error.inj he).symm⟩
  · intro r hr hok
    rw [hlm, listModelsOpenAI, hr]
    simp [hok]

/-- Claim C10 (witness): an HTTP 403 with no parseable body raises the
doubly-prefixed message built from the status text. -/
theorem openai_list_error_wrapping_witness :
    listModels openaiCfg dummyGemListOracle c10oo = Except.error
      ("OpenAI 模型列表获取失败: " ++ formatNetworkError
        ("模型列表获取失败: " ++ respErrMessage OpenAIListBody.errorMessage c10Resp)) :=
  (openai_list_error_wrapping openaiCfg dummyGemListOracle c10oo rfl (by decide)).2.1
    c10Resp rfl rfl
